import Mathlib

/-!
Shallow embedding of `src/build_bipartite_graph.py`: the attribute
classification rules (the `Attribute` classes), the bipartite graph
assembly (lines 209-226), and the command-line sample-percentage check
(lines 17-24).

Python floats are modelled by `PyFloat` (a rational number, `nan`, or a
signed infinity); Python runtime errors by `PyErr`; a pandas row by an
association list from column names to cell `Value`s; the `networkx`
undirected graph by its node set and its set of undirected edges, an
undirected edge being the unordered pair (a `Finset`) of its endpoints.
-/

deriving instance DecidableEq for Except

/-- Python float values as this program can produce them: finite floats
(modelled as rationals), `nan`, and the two infinities. -/
inductive PyFloat where
  | num (q : Rat)
  | nan
  | inf
  | ninf
deriving DecidableEq

/-- IEEE comparison `x < y` as Python evaluates it: any comparison with
`nan` is false. -/
def PyFloat.lt : PyFloat → PyFloat → Bool
  | .num a, .num b => decide (a < b)
  | .ninf, .num _ => true
  | .ninf, .inf => true
  | .num _, .inf => true
  | _, _ => false

/-- IEEE equality `x == y`: `nan == nan` is false. -/
def PyFloat.beq : PyFloat → PyFloat → Bool
  | .num a, .num b => decide (a = b)
  | .inf, .inf => true
  | .ninf, .ninf => true
  | _, _ => false

/-- IEEE `x <= y`, i.e. `x < y` or `x == y`. -/
def PyFloat.le (x y : PyFloat) : Bool := PyFloat.lt x y || PyFloat.beq x y

/-- IEEE `x > y`. -/
def PyFloat.gt (x y : PyFloat) : Bool := PyFloat.lt y x

/-- The Python exceptions this script can raise or catch. -/
inductive PyErr where
  | keyError (field : String)
  | valueError
  | typeError
deriving DecidableEq

/-- A cell value of the loaded table: a string, an integer column entry,
a float column entry (possibly `nan` for an empty cell), or Python
`None`. -/
inductive Value where
  | vStr (s : String)
  | vInt (n : Int)
  | vFloat (f : PyFloat)
  | vNone
deriving DecidableEq

/-- The apostrophe character, by code point (the file avoids bare quote
characters in literals). -/
def aposChar : Char := Char.ofNat 39

/-- The double-quote character, by code point. -/
def quoteChar : Char := Char.ofNat 34

/-- Python `str.strip()`: drop leading and trailing whitespace. -/
def pyStrip (s : String) : String :=
  String.mk (((s.toList.dropWhile Char.isWhitespace).reverse.dropWhile Char.isWhitespace).reverse)

/-- Python `str.lower()`. -/
def pyLower (s : String) : String := String.mk (s.toList.map Char.toLower)

/-- Python `str.replace(c, "")`: delete every occurrence of character
`c`. -/
def pyDelChar (c : Char) (s : String) : String :=
  String.mk (s.toList.filter (fun d => d != c))

/-- Python `str()` on a float.  Exact for `nan`, the infinities and
integral floats (the only float-to-string conversions the program's data
exercises); a non-integral rational is shown as a fraction, standing in
for Python's decimal rendering. -/
def pyFloatRepr : PyFloat → String
  | .nan => "nan"
  | .inf => "inf"
  | .ninf => "-inf"
  | .num q =>
    if q.den = 1 then toString q.num ++ ".0"
    else toString q.num ++ " / " ++ toString q.den

/-- Python `str()` on a cell value. -/
def pyStr : Value → String
  | .vStr s => s
  | .vInt n => toString n
  | .vFloat f => pyFloatRepr f
  | .vNone => "None"

/-- Numeric value of a list of decimal digit characters. -/
def digitsVal (cs : List Char) : Nat :=
  cs.foldl (fun n c => 10 * n + (c.toNat - 48)) 0

/-- Parse an unsigned decimal literal: digits with an optional decimal
point, as in `"30"`, `"2.9"`, `".5"`, `"5."`. -/
def parseDecimal (cs : List Char) : Option Rat :=
  let intPart := cs.takeWhile (fun c => c != ('.' : Char))
  let rest := cs.dropWhile (fun c => c != ('.' : Char))
  match rest with
  | [] =>
    if !intPart.isEmpty && intPart.all Char.isDigit then
      some ((digitsVal intPart : Nat) : Rat)
    else none
  | _ :: frac =>
    if frac.contains ('.' : Char) then none
    else if (!intPart.isEmpty || !frac.isEmpty) && intPart.all Char.isDigit
            && frac.all Char.isDigit then
      some (mkRat (digitsVal intPart * 10 ^ frac.length + digitsVal frac) (10 ^ frac.length))
    else none

/-- Python `float(string)`: strip whitespace, then case-insensitively
accept an optional sign followed by `inf`, `infinity`, `nan`, or a
decimal literal.  (Exponent notation and digit-group underscores, which
this program's inputs never use, are not modelled.)  Anything else raises
`ValueError`. -/
def pyFloatOfString (s : String) : Except PyErr PyFloat :=
  let cs := (pyLower (pyStrip s)).toList
  let signedBody : Bool × List Char :=
    match cs with
    | c :: rest =>
      if c = ('-' : Char) then (true, rest)
      else if c = ('+' : Char) then (false, rest)
      else (false, cs)
    | [] => (false, [])
  let neg := signedBody.1
  let body := signedBody.2
  if body = "inf".toList || body = "infinity".toList then
    .ok (if neg then .ninf else .inf)
  else if body = "nan".toList then .ok .nan
  else
    match parseDecimal body with
    | some q => .ok (.num (if neg then -q else q))
    | none => .error .valueError

/-- Python `float()` applied to a cell value: floats pass through,
integers convert exactly, strings parse (`ValueError` on failure), and
`None` raises `TypeError`. -/
def pyFloatOf : Value → Except PyErr PyFloat
  | .vFloat f => .ok f
  | .vInt n => .ok (.num (n : Rat))
  | .vStr s => pyFloatOfString s
  | .vNone => .error .typeError

/-- A table row, exposing named-field lookup by column name (the pandas
row interface the predicates use). -/
abbrev Student := List (String × Value)

/-- Python `student[key]` on a row: the cell value, or `KeyError` when
the column is absent. -/
def getItem (s : Student) (k : String) : Except PyErr Value :=
  match List.lookup k s with
  | some v => .ok v
  | none => .error (.keyError k)

/-- `normalize_value` (line 54): `None` stays `None`; any other value
becomes `str(value).strip().lower()` with every apostrophe and every
double-quote character deleted. -/
def normalize_value (value : Value) : Option String :=
  match value with
  | .vNone => none
  | v => some (pyDelChar quoteChar (pyDelChar aposChar (pyLower (pyStrip (pyStr v)))))

/-- An attribute-category rule: its graph node name and its predicate
(the `Attribute` class interface, lines 46-51). -/
structure Attribute where
  getName : String
  matchesStudent : Student → Except PyErr Bool

/-- `IsFemale` (line 62): normalized gender equals `"female"`.  A missing
`Gender` column raises `KeyError` (nothing is caught here). -/
def IsFemale : Attribute where
  getName := "Gender_Female"
  matchesStudent s :=
    match getItem s "Gender" with
    | .error e => .error e
    | .ok v => .ok (normalize_value v == some "female")

/-- `IsMale` (line 70): normalized gender equals `"male"`. -/
def IsMale : Attribute where
  getName := "Gender_Male"
  matchesStudent s :=
    match getItem s "Gender" with
    | .error e => .error e
    | .ok v => .ok (normalize_value v == some "male")

/-- `IsYoung` (line 80): `17 < age < 25`.  `ValueError`/`TypeError` from
`float` are caught and yield `False`; a missing column's `KeyError`
propagates. -/
def IsYoung : Attribute where
  getName := "Age_Young"
  matchesStudent s :=
    match getItem s "Age" with
    | .error e => .error e
    | .ok v =>
      .ok (match pyFloatOf v with
           | .ok age => PyFloat.lt (.num 17) age && PyFloat.lt age (.num 25)
           | .error _ => false)

/-- `IsYoungAdult` (line 91): `24 < age < 40`. -/
def IsYoungAdult : Attribute where
  getName := "Age_Young_Adult"
  matchesStudent s :=
    match getItem s "Age" with
    | .error e => .error e
    | .ok v =>
      .ok (match pyFloatOf v with
           | .ok age => PyFloat.lt (.num 24) age && PyFloat.lt age (.num 40)
           | .error _ => false)

/-- `IsAdult` (line 102): `age >= 40`. -/
def IsAdult : Attribute where
  getName := "Age_Adult"
  matchesStudent s :=
    match getItem s "Age" with
    | .error e => .error e
    | .ok v =>
      .ok (match pyFloatOf v with
           | .ok age => PyFloat.le (.num 40) age
           | .error _ => false)

/-- `HasLowAcademicPressure` (line 115): `pressure < 3.0`. -/
def HasLowAcademicPressure : Attribute where
  getName := "Low_Academic_Pressure"
  matchesStudent s :=
    match getItem s "Academic Pressure" with
    | .error e => .error e
    | .ok v =>
      .ok (match pyFloatOf v with
           | .ok p => PyFloat.lt p (.num 3)
           | .error _ => false)

/-- `HasMediumAcademicPressure` (line 126): `pressure == 3.0`. -/
def HasMediumAcademicPressure : Attribute where
  getName := "Medium_Academic_Pressure"
  matchesStudent s :=
    match getItem s "Academic Pressure" with
    | .error e => .error e
    | .ok v =>
      .ok (match pyFloatOf v with
           | .ok p => PyFloat.beq p (.num 3)
           | .error _ => false)

/-- `HasHighAcademicPressure` (line 137): `pressure > 3.0`. -/
def HasHighAcademicPressure : Attribute where
  getName := "High_Academic_Pressure"
  matchesStudent s :=
    match getItem s "Academic Pressure" with
    | .error e => .error e
    | .ok v =>
      .ok (match pyFloatOf v with
           | .ok p => PyFloat.gt p (.num 3)
           | .error _ => false)

/-- `HasLowStudySatisfaction` (line 153): `satisfaction < 3.0`. -/
def HasLowStudySatisfaction : Attribute where
  getName := "Low_Study_Satisfaction"
  matchesStudent s :=
    match getItem s "Study Satisfaction" with
    | .error e => .error e
    | .ok v =>
      .ok (match pyFloatOf v with
           | .ok p => PyFloat.lt p (.num 3)
           | .error _ => false)

/-- `HasMediumStudySatisfaction` (line 164): `satisfaction == 3.0`. -/
def HasMediumStudySatisfaction : Attribute where
  getName := "Medium_Study_Satisfaction"
  matchesStudent s :=
    match getItem s "Study Satisfaction" with
    | .error e => .error e
    | .ok v =>
      .ok (match pyFloatOf v with
           | .ok p => PyFloat.beq p (.num 3)
           | .error _ => false)

/-- `HasHighStudySatisfaction` (line 175): `satisfaction > 3.0`. -/
def HasHighStudySatisfaction : Attribute where
  getName := "High_Study_Satisfaction"
  matchesStudent s :=
    match getItem s "Study Satisfaction" with
    | .error e => .error e
    | .ok v =>
      .ok (match pyFloatOf v with
           | .ok p => PyFloat.gt p (.num 3)
           | .error _ => false)

/-- `HasGoodSleep` (line 188): `str(value).strip()` with apostrophes
deleted is `"7-8 hours"` or `"More than 8 hours"` (note: no lowercasing
and no double-quote stripping here, unlike `normalize_value`). -/
def HasGoodSleep : Attribute where
  getName := "HasGoodSleep"
  matchesStudent s :=
    match getItem s "Sleep Duration" with
    | .error e => .error e
    | .ok v =>
      .ok (["7-8 hours", "More than 8 hours"].contains (pyDelChar aposChar (pyStrip (pyStr v))))

/-- `HasBadSleep` (line 197): same normalization, bucket
`{"Less than 5 hours", "5-6 hours"}`. -/
def HasBadSleep : Attribute where
  getName := "HasBadSleep"
  matchesStudent s :=
    match getItem s "Sleep Duration" with
    | .error e => .error e
    | .ok v =>
      .ok (["Less than 5 hours", "5-6 hours"].contains (pyDelChar aposChar (pyStrip (pyStr v))))

/-- The attribute catalog, in the instantiation order of line 209. -/
def attributes : List Attribute :=
  [HasGoodSleep, HasBadSleep, IsFemale, IsMale, IsYoung, IsYoungAdult, IsAdult,
   HasLowAcademicPressure, HasMediumAcademicPressure, HasHighAcademicPressure,
   HasLowStudySatisfaction, HasMediumStudySatisfaction, HasHighStudySatisfaction]

/-- `attribute_nodes` (line 210): the catalog's node names. -/
def attribute_nodes : List String := attributes.map (fun a => a.getName)

/-- An undirected `networkx` edge: the unordered pair of its endpoint
keys (a self-loop is a singleton). -/
def eKey (u v : String) : Finset String := {u, v}

/-- The built graph as `networkx` exposes it: the node set and the set
of undirected edges.  Both are mathematical sets — adding an existing
node or edge is a no-op. -/
structure BGraph where
  nodes : Finset String
  edges : Finset (Finset String)
deriving DecidableEq

/-- `str(student["id"])`: the node key of a record (lines 41 and 221). -/
def idOf (r : Student) : Except PyErr String :=
  match getItem r "id" with
  | .error e => .error e
  | .ok v => .ok (pyStr v)

/-- `students` (line 41): every record's identifier, as a string, in
record order. -/
def students : List Student → Except PyErr (List String)
  | [] => .ok []
  | r :: rs =>
    match idOf r with
    | .error e => .error e
    | .ok x =>
      match students rs with
      | .error e => .error e
      | .ok xs => .ok (x :: xs)

/-- The inner loop of lines 222-224: walk the catalog, keeping
`(student_id, attribute_name)` for every predicate that returns true.
The first uncaught exception aborts the run. -/
def attrEdges (s : Student) (sid : String) : List Attribute → Except PyErr (List (String × String))
  | [] => .ok []
  | a :: rest =>
    match a.matchesStudent s with
    | .error e => .error e
    | .ok m =>
      match attrEdges s sid rest with
      | .error e => .error e
      | .ok es => .ok (if m then (sid, a.getName) :: es else es)

/-- One iteration of the outer loop (lines 220-224): read the record's
identifier, then scan the catalog. -/
def recordEdges (cat : List Attribute) (r : Student) : Except PyErr (List (String × String)) :=
  match getItem r "id" with
  | .error e => .error e
  | .ok v => attrEdges r (pyStr v) cat

/-- The full edge list of lines 219-224, in evaluation order. -/
def collectEdges (cat : List Attribute) : List Student → Except PyErr (List (String × String))
  | [] => .ok []
  | r :: rs =>
    match recordEdges cat r with
    | .error e => .error e
    | .ok es =>
      match collectEdges cat rs with
      | .error e => .error e
      | .ok rest => .ok (es ++ rest)

/-- Graph assembly (lines 215-226) for an arbitrary catalog: add the
record-identifier nodes, the catalog-name nodes, then the edges
(`add_edges_from` also inserts any endpoint not yet present). -/
def buildGraphWith (cat : List Attribute) (rs : List Student) : Except PyErr BGraph :=
  match students rs with
  | .error e => .error e
  | .ok sids =>
    match collectEdges cat rs with
    | .error e => .error e
    | .ok es =>
      .ok { nodes := sids.toFinset ∪ (cat.map (fun a => a.getName)).toFinset
                     ∪ (es.map Prod.fst).toFinset ∪ (es.map Prod.snd).toFinset,
            edges := (es.map (fun p => eKey p.1 p.2)).toFinset }

/-- The graph the script builds, with the fixed catalog of line 209. -/
def buildGraph (rs : List Student) : Except PyErr BGraph := buildGraphWith attributes rs

/-- Outcome of the sample-percentage argument check. -/
inductive SampleArgResult where
  | ok (p : PyFloat)
  | exit (msg : String) (code : Nat)
deriving DecidableEq

/-- Lines 17-24: `float(argv[2])`; a `ValueError` — from parsing, or
re-raised when `0 <= p <= 100` fails — prints the error message and the
process exits with status 1.  In the script this check precedes reading
the dataset and all classification. -/
def parseSamplePercentage (arg : String) : SampleArgResult :=
  match pyFloatOfString arg with
  | .error _ => .exit "Error: sample_percentage must be a number between 0 and 100" 1
  | .ok p =>
    if PyFloat.le (.num 0) p && PyFloat.le p (.num 100) then .ok p
    else .exit "Error: sample_percentage must be a number between 0 and 100" 1

/-! ### Characterization lemmas for the builder -/

/-- Membership in the attribute catalog, spelled out. -/
theorem mem_attributes_iff (a : Attribute) :
    a ∈ attributes ↔
      a = HasGoodSleep ∨ a = HasBadSleep ∨ a = IsFemale ∨ a = IsMale ∨ a = IsYoung ∨
      a = IsYoungAdult ∨ a = IsAdult ∨ a = HasLowAcademicPressure ∨
      a = HasMediumAcademicPressure ∨ a = HasHighAcademicPressure ∨
      a = HasLowStudySatisfaction ∨ a = HasMediumStudySatisfaction ∨
      a = HasHighStudySatisfaction := by
  simp [attributes]

/-- Catalog entries are determined by their names: the 13 names are
pairwise distinct. -/
theorem attr_getName_inj (a : Attribute) (ha : a ∈ attributes) (b : Attribute)
    (hb : b ∈ attributes) (h : a.getName = b.getName) : a = b := by
  rw [mem_attributes_iff] at ha hb
  rcases ha with rfl | rfl | rfl | rfl | rfl | rfl | rfl | rfl | rfl | rfl | rfl | rfl | rfl <;>
    rcases hb with rfl | rfl | rfl | rfl | rfl | rfl | rfl | rfl | rfl | rfl | rfl | rfl | rfl <;>
    first
      | rfl
      | exact absurd h (by decide)

/-- The inner catalog scan on one record: its successful output lists
exactly the pairs `(sid, a.getName)` for the predicates that returned
true. -/
theorem attrEdges_ok_mem {s : Student} {sid : String} {cat : List Attribute}
    {es : List (String × String)} (h : attrEdges s sid cat = .ok es) (p : String × String) :
    p ∈ es ↔ ∃ a ∈ cat, a.matchesStudent s = .ok true ∧ p = (sid, a.getName) := by
  induction cat generalizing es with
  | nil =>
    simp only [attrEdges] at h
    cases h
    simp
  | cons a rest ih =>
    simp only [attrEdges] at h
    cases hm : a.matchesStudent s with
    | error e => rw [hm] at h; cases h
    | ok m =>
      rw [hm] at h
      cases hrest : attrEdges s sid rest with
      | error e => rw [hrest] at h; cases h
      | ok es2 =>
        rw [hrest] at h
        simp only [Except.ok.injEq] at h
        cases m with
        | true =>
          rw [if_pos rfl] at h
          subst h
          constructor
          · intro hp
            rcases List.mem_cons.mp hp with rfl | hp2
            · exact ⟨a, List.mem_cons_self a rest, hm, rfl⟩
            · obtain ⟨b, hb, hmb, rfl⟩ := (ih hrest).mp hp2
              exact ⟨b, List.mem_cons_of_mem a hb, hmb, rfl⟩
          · rintro ⟨b, hb, hmb, rfl⟩
            rcases List.mem_cons.mp hb with rfl | hb2
            · exact List.mem_cons_self _ _
            · exact List.mem_cons_of_mem _ ((ih hrest).mpr ⟨b, hb2, hmb, rfl⟩)
        | false =>
          rw [if_neg Bool.false_ne_true] at h
          subst h
          rw [ih hrest]
          constructor
          · rintro ⟨b, hb, hmb, rfl⟩
            exact ⟨b, List.mem_cons_of_mem a hb, hmb, rfl⟩
          · rintro ⟨b, hb, hmb, rfl⟩
            rcases List.mem_cons.mp hb with rfl | hb2
            · rw [hm] at hmb; cases hmb
            · exact ⟨b, hb2, hmb, rfl⟩

/-- A record's loop iteration succeeds exactly when its identifier reads
back and the catalog scan succeeds on it. -/
theorem recordEdges_ok_iff {cat : List Attribute} {r : Student}
    {l : List (String × String)} :
    recordEdges cat r = .ok l ↔
      ∃ v, getItem r "id" = .ok v ∧ attrEdges r (pyStr v) cat = .ok l := by
  unfold recordEdges
  cases hv : getItem r "id" with
  | error e => simp
  | ok v => simp

/-- The collected edge list: its successful output holds exactly the
pairs produced by some record's loop iteration. -/
theorem collectEdges_ok_mem {cat : List Attribute} {rs : List Student}
    {es : List (String × String)} (h : collectEdges cat rs = .ok es) (p : String × String) :
    p ∈ es ↔ ∃ r ∈ rs, ∃ l, recordEdges cat r = .ok l ∧ p ∈ l := by
  induction rs generalizing es with
  | nil =>
    simp only [collectEdges] at h
    cases h
    simp
  | cons r rest ih =>
    simp only [collectEdges] at h
    cases hr : recordEdges cat r with
    | error e => rw [hr] at h; cases h
    | ok l1 =>
      rw [hr] at h
      cases hrest : collectEdges cat rest with
      | error e => rw [hrest] at h; cases h
      | ok l2 =>
        rw [hrest] at h
        cases h
        constructor
        · intro hp
          rcases List.mem_append.mp hp with hp1 | hp2
          · exact ⟨r, List.mem_cons_self r rest, l1, hr, hp1⟩
          · obtain ⟨r2, hr2, l, hl, hpl⟩ := (ih hrest).mp hp2
            exact ⟨r2, List.mem_cons_of_mem r hr2, l, hl, hpl⟩
        · rintro ⟨r2, hr2, l, hl, hpl⟩
          rcases List.mem_cons.mp hr2 with rfl | hr2b
          · rw [hr] at hl; cases hl; exact List.mem_append.mpr (Or.inl hpl)
          · exact List.mem_append.mpr (Or.inr ((ih hrest).mpr ⟨r2, hr2b, l, hl, hpl⟩))

/-- The successful identifier list holds exactly the identifiers of the
input records. -/
theorem students_ok_mem {rs : List Student} {xs : List String}
    (h : students rs = .ok xs) (x : String) :
    x ∈ xs ↔ ∃ r ∈ rs, idOf r = .ok x := by
  induction rs generalizing xs with
  | nil =>
    simp only [students] at h
    cases h
    simp
  | cons r rest ih =>
    simp only [students] at h
    cases hr : idOf r with
    | error e => rw [hr] at h; cases h
    | ok y =>
      rw [hr] at h
      cases hrest : students rest with
      | error e => rw [hrest] at h; cases h
      | ok ys =>
        rw [hrest] at h
        cases h
        constructor
        · intro hx
          rcases List.mem_cons.mp hx with rfl | hx2
          · exact ⟨r, List.mem_cons_self r rest, hr⟩
          · obtain ⟨r2, hr2, hid⟩ := (ih hrest).mp hx2
            exact ⟨r2, List.mem_cons_of_mem r hr2, hid⟩
        · rintro ⟨r2, hr2, hid⟩
          rcases List.mem_cons.mp hr2 with rfl | hr2b
          · rw [hr] at hid; cases hid; exact List.mem_cons_self _ _
          · exact List.mem_cons_of_mem _ ((ih hrest).mpr ⟨r2, hr2b, hid⟩)

/-- When the identifier list succeeds, every input record's identifier
reads back and appears in it. -/
theorem students_ok_forall {rs : List Student} {xs : List String}
    (h : students rs = .ok xs) {r : Student} (hr : r ∈ rs) :
    ∃ x, idOf r = .ok x ∧ x ∈ xs := by
  induction rs generalizing xs with
  | nil => cases hr
  | cons r0 rest ih =>
    simp only [students] at h
    cases hr0 : idOf r0 with
    | error e => rw [hr0] at h; cases h
    | ok y =>
      rw [hr0] at h
      cases hrest : students rest with
      | error e => rw [hrest] at h; cases h
      | ok ys =>
        rw [hrest] at h
        cases h
        rcases List.mem_cons.mp hr with rfl | hr2
        · exact ⟨y, hr0, List.mem_cons_self _ _⟩
        · obtain ⟨x, hx1, hx2⟩ := ih hrest hr2
          exact ⟨x, hx1, List.mem_cons_of_mem _ hx2⟩

/-- With pairwise-distinct identifiers, a record of the input is pinned
down by its identifier. -/
theorem students_id_unique {rs : List Student} {xs : List String}
    (h : students rs = .ok xs) (hnd : xs.Nodup) {r r2 : Student} {x : String}
    (hr : r ∈ rs) (hr2 : r2 ∈ rs) (hid : idOf r = .ok x) (hid2 : idOf r2 = .ok x) :
    r = r2 := by
  induction rs generalizing xs with
  | nil => cases hr
  | cons r0 rest ih =>
    simp only [students] at h
    cases hr0 : idOf r0 with
    | error e => rw [hr0] at h; cases h
    | ok y =>
      rw [hr0] at h
      cases hrest : students rest with
      | error e => rw [hrest] at h; cases h
      | ok ys =>
        rw [hrest] at h
        cases h
        have hy : y ∉ ys := (List.nodup_cons.mp hnd).1
        have hys : ys.Nodup := (List.nodup_cons.mp hnd).2
        rcases List.mem_cons.mp hr with rfl | hrA
        · rcases List.mem_cons.mp hr2 with rfl | hrB
          · rfl
          · rw [hr0] at hid; cases hid
            obtain ⟨x2, hx2a, hx2b⟩ := students_ok_forall hrest hrB
            rw [hid2] at hx2a; cases hx2a
            exact absurd hx2b hy
        · rcases List.mem_cons.mp hr2 with rfl | hrB
          · rw [hr0] at hid2; cases hid2
            obtain ⟨x1, hx1a, hx1b⟩ := students_ok_forall hrest hrA
            rw [hid] at hx1a; cases hx1a
            exact absurd hx1b hy
          · exact ih hrest hys hrA hrB

/-- Reading a record's identifier, stated via `getItem`. -/
theorem idOf_eq_ok_of {r : Student} {v : Value} (hv : getItem r "id" = .ok v) :
    idOf r = .ok (pyStr v) := by
  unfold idOf
  rw [hv]

/-- `idOf` succeeds exactly when the `id` column is present. -/
theorem idOf_ok_iff {r : Student} {x : String} :
    idOf r = .ok x ↔ ∃ v, getItem r "id" = .ok v ∧ pyStr v = x := by
  unfold idOf
  cases hv : getItem r "id" <;> simp

/-- When the whole edge scan succeeds, every record's own scan does. -/
theorem collectEdges_ok_forall {cat : List Attribute} {rs : List Student}
    {es : List (String × String)} (h : collectEdges cat rs = .ok es) {r : Student}
    (hr : r ∈ rs) : ∃ l, recordEdges cat r = .ok l := by
  induction rs generalizing es with
  | nil => cases hr
  | cons r0 rest ih =>
    simp only [collectEdges] at h
    cases hr0 : recordEdges cat r0 with
    | error e => rw [hr0] at h; cases h
    | ok l1 =>
      rw [hr0] at h
      cases hrest : collectEdges cat rest with
      | error e => rw [hrest] at h; cases h
      | ok l2 =>
        rcases List.mem_cons.mp hr with rfl | hr2
        · exact ⟨l1, hr0⟩
        · exact ih hrest hr2

/-- Destructor for a successful build: the identifier list and edge list
both succeeded and the graph is assembled from them. -/
theorem buildGraphWith_ok_elim {cat : List Attribute} {rs : List Student} {G : BGraph}
    (h : buildGraphWith cat rs = .ok G) :
    ∃ sids es, students rs = .ok sids ∧ collectEdges cat rs = .ok es ∧
      G = { nodes := sids.toFinset ∪ (cat.map (fun a => a.getName)).toFinset
                     ∪ (es.map Prod.fst).toFinset ∪ (es.map Prod.snd).toFinset,
            edges := (es.map (fun p => eKey p.1 p.2)).toFinset } := by
  unfold buildGraphWith at h
  cases hs : students rs with
  | error e => rw [hs] at h; cases h
  | ok sids =>
    rw [hs] at h
    cases he : collectEdges cat rs with
    | error e => rw [he] at h; cases h
    | ok es =>
      rw [he] at h
      cases h
      exact ⟨sids, es, rfl, rfl, rfl⟩

/-- The edge set of a successfully built graph: an unordered pair is an
edge exactly when it is `{id r, name a}` for a record `r` of the input
and a catalog entry `a` whose predicate returned true on `r`. -/
theorem build_edges_mem {cat : List Attribute} {rs : List Student} {G : BGraph}
    (h : buildGraphWith cat rs = .ok G) (t : Finset String) :
    t ∈ G.edges ↔ ∃ r ∈ rs, ∃ v, getItem r "id" = .ok v ∧
      ∃ a ∈ cat, a.matchesStudent r = .ok true ∧ t = eKey (pyStr v) a.getName := by
  obtain ⟨sids, es, hs, he, rfl⟩ := buildGraphWith_ok_elim h
  simp only [List.mem_toFinset, List.mem_map]
  constructor
  · rintro ⟨p, hp, rfl⟩
    obtain ⟨r, hr, l, hl, hpl⟩ := (collectEdges_ok_mem he p).mp hp
    obtain ⟨v, hv, hae⟩ := recordEdges_ok_iff.mp hl
    obtain ⟨a, ha, hma, rfl⟩ := (attrEdges_ok_mem hae _).mp hpl
    exact ⟨r, hr, v, hv, a, ha, hma, rfl⟩
  · rintro ⟨r, hr, v, hv, a, ha, hma, rfl⟩
    obtain ⟨l, hl⟩ := collectEdges_ok_forall he hr
    obtain ⟨v2, hv2, hae⟩ := recordEdges_ok_iff.mp hl
    rw [hv] at hv2
    cases hv2
    refine ⟨(pyStr v, a.getName), ?_, rfl⟩
    exact (collectEdges_ok_mem he _).mpr
      ⟨r, hr, l, hl, (attrEdges_ok_mem hae _).mpr ⟨a, ha, hma, rfl⟩⟩

/-- The node set of a successfully built graph: exactly the record
identifiers plus the catalog names (edge endpoints are absorbed). -/
theorem build_nodes_mem {cat : List Attribute} {rs : List Student} {G : BGraph}
    (h : buildGraphWith cat rs = .ok G) (x : String) :
    x ∈ G.nodes ↔ (∃ r ∈ rs, idOf r = .ok x) ∨ ∃ a ∈ cat, a.getName = x := by
  obtain ⟨sids, es, hs, he, rfl⟩ := buildGraphWith_ok_elim h
  simp only [Finset.mem_union, List.mem_toFinset, List.mem_map]
  constructor
  · rintro (((hx | hx) | hx) | hx)
    · exact Or.inl ((students_ok_mem hs x).mp hx)
    · exact Or.inr hx
    · obtain ⟨p, hp, rfl⟩ := hx
      obtain ⟨r, hr, l, hl, hpl⟩ := (collectEdges_ok_mem he p).mp hp
      obtain ⟨v, hv, hae⟩ := recordEdges_ok_iff.mp hl
      obtain ⟨a, ha, hma, rfl⟩ := (attrEdges_ok_mem hae _).mp hpl
      exact Or.inl ⟨r, hr, idOf_eq_ok_of hv⟩
    · obtain ⟨p, hp, rfl⟩ := hx
      obtain ⟨r, hr, l, hl, hpl⟩ := (collectEdges_ok_mem he p).mp hp
      obtain ⟨v, hv, hae⟩ := recordEdges_ok_iff.mp hl
      obtain ⟨a, ha, hma, rfl⟩ := (attrEdges_ok_mem hae _).mp hpl
      exact Or.inr ⟨a, ha, rfl⟩
  · rintro (⟨r, hr, hid⟩ | ⟨a, ha, rfl⟩)
    · exact Or.inl (Or.inl (Or.inl ((students_ok_mem hs x).mpr ⟨r, hr, hid⟩)))
    · exact Or.inl (Or.inl (Or.inr ⟨a, ha, rfl⟩))

/-- Equality of unordered pairs of strings. -/
theorem eKey_eq_eKey_iff {a b c d : String} :
    eKey a b = eKey c d ↔ (a = c ∧ b = d) ∨ (a = d ∧ b = c) := by
  unfold eKey
  rw [← Finset.coe_inj]
  simp only [Finset.coe_insert, Finset.coe_singleton]
  exact Set.pair_eq_pair_iff

/-! ### Evaluation lemmas for the predicates -/

/-- Numeric comparison on two finite floats. -/
theorem pf_lt_num (a b : Rat) : PyFloat.lt (.num a) (.num b) = decide (a < b) := rfl

/-- Numeric equality on two finite floats. -/
theorem pf_beq_num (a b : Rat) : PyFloat.beq (.num a) (.num b) = decide (a = b) := rfl

/-- Numeric `<=` on two finite floats agrees with the rational order. -/
theorem pf_le_num (a b : Rat) : PyFloat.le (.num a) (.num b) = decide (a ≤ b) := by
  unfold PyFloat.le
  rw [pf_lt_num, pf_beq_num]
  by_cases h1 : a < b
  · simp [h1, h1.le]
  · by_cases h2 : a = b
    · simp [h1, h2]
    · have h3 : ¬ a ≤ b := by
        rw [le_iff_lt_or_eq]
        tauto
      simp [h1, h2, h3]

/-- Numeric `>` on two finite floats. -/
theorem pf_gt_num (a b : Rat) : PyFloat.gt (.num a) (.num b) = decide (b < a) := rfl

/-- Whether a predicate call returned `True`. -/
def okTrue (e : Except PyErr Bool) : Bool :=
  match e with
  | .ok true => true
  | _ => false

theorem okTrue_ok (b : Bool) : okTrue (.ok b) = b := by cases b <;> rfl

theorem okTrue_error (e : PyErr) : okTrue (.error e) = false := rfl

theorem IsFemale_eval {s : Student} {v : Value} (hv : List.lookup "Gender" s = some v) :
    IsFemale.matchesStudent s = .ok (normalize_value v == some "female") := by
  simp only [IsFemale, getItem, hv]

theorem IsMale_eval {s : Student} {v : Value} (hv : List.lookup "Gender" s = some v) :
    IsMale.matchesStudent s = .ok (normalize_value v == some "male") := by
  simp only [IsMale, getItem, hv]

theorem IsYoung_eval {s : Student} {v : Value} (hv : List.lookup "Age" s = some v) :
    IsYoung.matchesStudent s =
      .ok (match pyFloatOf v with
           | .ok age => PyFloat.lt (.num 17) age && PyFloat.lt age (.num 25)
           | .error _ => false) := by
  simp only [IsYoung, getItem, hv]

theorem IsYoungAdult_eval {s : Student} {v : Value} (hv : List.lookup "Age" s = some v) :
    IsYoungAdult.matchesStudent s =
      .ok (match pyFloatOf v with
           | .ok age => PyFloat.lt (.num 24) age && PyFloat.lt age (.num 40)
           | .error _ => false) := by
  simp only [IsYoungAdult, getItem, hv]

theorem IsAdult_eval {s : Student} {v : Value} (hv : List.lookup "Age" s = some v) :
    IsAdult.matchesStudent s =
      .ok (match pyFloatOf v with
           | .ok age => PyFloat.le (.num 40) age
           | .error _ => false) := by
  simp only [IsAdult, getItem, hv]

theorem IsYoung_eval_err {s : Student} (hv : List.lookup "Age" s = none) :
    IsYoung.matchesStudent s = .error (.keyError "Age") := by
  simp only [IsYoung, getItem, hv]

theorem IsYoungAdult_eval_err {s : Student} (hv : List.lookup "Age" s = none) :
    IsYoungAdult.matchesStudent s = .error (.keyError "Age") := by
  simp only [IsYoungAdult, getItem, hv]

theorem IsAdult_eval_err {s : Student} (hv : List.lookup "Age" s = none) :
    IsAdult.matchesStudent s = .error (.keyError "Age") := by
  simp only [IsAdult, getItem, hv]

theorem HasLowAcademicPressure_eval {s : Student} {v : Value}
    (hv : List.lookup "Academic Pressure" s = some v) :
    HasLowAcademicPressure.matchesStudent s =
      .ok (match pyFloatOf v with
           | .ok p => PyFloat.lt p (.num 3)
           | .error _ => false) := by
  simp only [HasLowAcademicPressure, getItem, hv]

theorem HasMediumAcademicPressure_eval {s : Student} {v : Value}
    (hv : List.lookup "Academic Pressure" s = some v) :
    HasMediumAcademicPressure.matchesStudent s =
      .ok (match pyFloatOf v with
           | .ok p => PyFloat.beq p (.num 3)
           | .error _ => false) := by
  simp only [HasMediumAcademicPressure, getItem, hv]

theorem HasHighAcademicPressure_eval {s : Student} {v : Value}
    (hv : List.lookup "Academic Pressure" s = some v) :
    HasHighAcademicPressure.matchesStudent s =
      .ok (match pyFloatOf v with
           | .ok p => PyFloat.gt p (.num 3)
           | .error _ => false) := by
  simp only [HasHighAcademicPressure, getItem, hv]

theorem HasLowAcademicPressure_eval_err {s : Student}
    (hv : List.lookup "Academic Pressure" s = none) :
    HasLowAcademicPressure.matchesStudent s = .error (.keyError "Academic Pressure") := by
  simp only [HasLowAcademicPressure, getItem, hv]

theorem HasMediumAcademicPressure_eval_err {s : Student}
    (hv : List.lookup "Academic Pressure" s = none) :
    HasMediumAcademicPressure.matchesStudent s = .error (.keyError "Academic Pressure") := by
  simp only [HasMediumAcademicPressure, getItem, hv]

theorem HasHighAcademicPressure_eval_err {s : Student}
    (hv : List.lookup "Academic Pressure" s = none) :
    HasHighAcademicPressure.matchesStudent s = .error (.keyError "Academic Pressure") := by
  simp only [HasHighAcademicPressure, getItem, hv]

theorem HasLowStudySatisfaction_eval {s : Student} {v : Value}
    (hv : List.lookup "Study Satisfaction" s = some v) :
    HasLowStudySatisfaction.matchesStudent s =
      .ok (match pyFloatOf v with
           | .ok p => PyFloat.lt p (.num 3)
           | .error _ => false) := by
  simp only [HasLowStudySatisfaction, getItem, hv]

theorem HasMediumStudySatisfaction_eval {s : Student} {v : Value}
    (hv : List.lookup "Study Satisfaction" s = some v) :
    HasMediumStudySatisfaction.matchesStudent s =
      .ok (match pyFloatOf v with
           | .ok p => PyFloat.beq p (.num 3)
           | .error _ => false) := by
  simp only [HasMediumStudySatisfaction, getItem, hv]

theorem HasHighStudySatisfaction_eval {s : Student} {v : Value}
    (hv : List.lookup "Study Satisfaction" s = some v) :
    HasHighStudySatisfaction.matchesStudent s =
      .ok (match pyFloatOf v with
           | .ok p => PyFloat.gt p (.num 3)
           | .error _ => false) := by
  simp only [HasHighStudySatisfaction, getItem, hv]

theorem HasGoodSleep_eval {s : Student} {v : Value}
    (hv : List.lookup "Sleep Duration" s = some v) :
    HasGoodSleep.matchesStudent s =
      .ok (["7-8 hours", "More than 8 hours"].contains (pyDelChar aposChar (pyStrip (pyStr v)))) := by
  simp only [HasGoodSleep, getItem, hv]

theorem HasBadSleep_eval {s : Student} {v : Value}
    (hv : List.lookup "Sleep Duration" s = some v) :
    HasBadSleep.matchesStudent s =
      .ok (["Less than 5 hours", "5-6 hours"].contains (pyDelChar aposChar (pyStrip (pyStr v)))) := by
  simp only [HasBadSleep, getItem, hv]

/-! ### Definitions supporting the claim statements -/

/-- Is the unordered pair `{u, v}` an edge of the graph built from `rs`?
(`false` when the build aborts with an exception.) -/
def edgeInBuild (rs : List Student) (u v : String) : Bool :=
  match buildGraph rs with
  | .ok G => eKey u v ∈ G.edges
  | .error _ => false

/-- Node count of the built graph, when the build succeeds. -/
def buildNodeCard (rs : List Student) : Option Nat :=
  match buildGraph rs with
  | .ok G => some G.nodes.card
  | .error _ => none

/-- The finite rational value of the `Age` field, when it has one. -/
def ageRatOf (s : Student) : Option Rat :=
  match List.lookup "Age" s with
  | some v =>
    match pyFloatOf v with
    | .ok (.num q) => some q
    | _ => none
  | none => none

/-- Does the age fall strictly between 24 and 25 — the overlap of the
`Age_Young` bracket `17 < age < 25` and the `Age_Young_Adult` bracket
`24 < age < 40`? -/
def ageInOverlap (s : Student) : Bool :=
  match ageRatOf s with
  | some q => decide (24 < q) && decide (q < 25)
  | none => false

/-- How many of the three age predicates returned `True`. -/
def ageTrueCount (s : Student) : Nat :=
  (if okTrue (IsYoung.matchesStudent s) then 1 else 0) +
    (if okTrue (IsYoungAdult.matchesStudent s) then 1 else 0) +
    (if okTrue (IsAdult.matchesStudent s) then 1 else 0)

/-- How many of the three academic-pressure predicates returned `True`. -/
def pressureTrueCount (s : Student) : Nat :=
  (if okTrue (HasLowAcademicPressure.matchesStudent s) then 1 else 0) +
    (if okTrue (HasMediumAcademicPressure.matchesStudent s) then 1 else 0) +
    (if okTrue (HasHighAcademicPressure.matchesStudent s) then 1 else 0)

/-- Does the `Academic Pressure` field hold a value that `float`
converts to `nan`? -/
def pressureIsNaN (s : Student) : Bool :=
  match List.lookup "Academic Pressure" s with
  | some v =>
    match pyFloatOf v with
    | .ok .nan => true
    | _ => false
  | none => false

/-- `float()` fails on the value (Python would raise `ValueError` or
`TypeError`): the "non-numeric value where numeric expected" parse
failure. -/
def numericParseFails (v : Value) : Bool :=
  match pyFloatOf v with
  | .ok _ => false
  | .error _ => true

/-- The value normalizes to one of the two recognized gender tokens. -/
def recognizedGender (v : Value) : Bool :=
  normalize_value v == some "female" || normalize_value v == some "male"

/-- The value normalizes (sleep-style) to one of the four sleep-bucket
tokens. -/
def recognizedSleep (v : Value) : Bool :=
  (["7-8 hours", "More than 8 hours", "Less than 5 hours", "5-6 hours"] : List String).contains
    (pyDelChar aposChar (pyStrip (pyStr v)))

/-- Each catalog entry paired with the one column its predicate
consults (the only field whose absence can raise) and with its notion
of parse failure: `float()` rejection for the seven numeric attributes,
an unrecognized category token for the gender and sleep attributes. -/
def catalogColumns : List (Attribute × String × (Value → Bool)) :=
  [(HasGoodSleep, "Sleep Duration", fun v => !recognizedSleep v),
   (HasBadSleep, "Sleep Duration", fun v => !recognizedSleep v),
   (IsFemale, "Gender", fun v => !recognizedGender v),
   (IsMale, "Gender", fun v => !recognizedGender v),
   (IsYoung, "Age", numericParseFails),
   (IsYoungAdult, "Age", numericParseFails),
   (IsAdult, "Age", numericParseFails),
   (HasLowAcademicPressure, "Academic Pressure", numericParseFails),
   (HasMediumAcademicPressure, "Academic Pressure", numericParseFails),
   (HasHighAcademicPressure, "Academic Pressure", numericParseFails),
   (HasLowStudySatisfaction, "Study Satisfaction", numericParseFails),
   (HasMediumStudySatisfaction, "Study Satisfaction", numericParseFails),
   (HasHighStudySatisfaction, "Study Satisfaction", numericParseFails)]

/-- Modelled from the spec (§4.1): the spec describes string comparison
as operating on "a normalized string value: trimmed of whitespace,
case-folded, with surrounding quote characters stripped", and lists the
good-sleep buckets in lowercase.  This follows the spec's words, for
comparison with the code's `HasGoodSleep` (which neither case-folds nor
deletes double-quote characters). -/
def specHasGoodSleep (v : Value) : Bool :=
  ["7-8 hours", "more than 8 hours"].contains
    (pyDelChar quoteChar (pyDelChar aposChar (pyLower (pyStrip (pyStr v)))))

/-- The validity test the script applies to the sample-percentage
argument: it parses as a float `p` with `0 <= p <= 100`. -/
def sampleArgValid (arg : String) : Bool :=
  match pyFloatOfString arg with
  | .ok p => PyFloat.le (.num 0) p && PyFloat.le p (.num 100)
  | .error _ => false

/-- A record carrying only an `Age` column. -/
def ageRecord (f : PyFloat) : Student := [("Age", Value.vFloat f)]

/-- A record carrying only an `Academic Pressure` column. -/
def pressureRecord (f : PyFloat) : Student := [("Academic Pressure", Value.vFloat f)]

/-- A record with every consulted column present. -/
def fullRecord (i g a p t l : Value) : Student :=
  [("id", i), ("Gender", g), ("Age", a), ("Academic Pressure", p),
   ("Study Satisfaction", t), ("Sleep Duration", l)]

/-! ### Claims C3, C4, C5 -/

/-- Counterexample to C3 as stated: on a record with no `Age` column,
`IsYoung.matchesStudent` raises `KeyError` instead of returning false —
only `ValueError` and `TypeError` are caught by the predicate. -/
theorem matches_raises_on_missing_field :
    IsYoung.matchesStudent [("id", Value.vStr "9")] = .error (.keyError "Age") := by
  decide

/-- A token outside the four sleep buckets is in neither bucket list. -/
theorem sleep_buckets_false {v : Value} (h : recognizedSleep v = false) :
    (["7-8 hours", "More than 8 hours"] : List String).contains
        (pyDelChar aposChar (pyStrip (pyStr v))) = false ∧
    (["Less than 5 hours", "5-6 hours"] : List String).contains
        (pyDelChar aposChar (pyStrip (pyStr v))) = false := by
  unfold recognizedSleep at h
  simp only [List.contains_cons, List.contains_nil, Bool.or_eq_false_iff] at h ⊢
  tauto

/-- C3 (amended): for every catalog predicate, on every record in which
the one column that predicate consults is present, `matches` never
raises — it returns a Boolean — and on a parse failure of that value
(a non-numeric value where numeric is expected, an unrecognized
category token for the gender and sleep attributes) it returns false
rather than an error.  (A missing consulted column raises `KeyError`.) -/
theorem matches_total_and_false_on_parse_failure (a : Attribute) (k : String)
    (f : Value → Bool) (hak : (a, k, f) ∈ catalogColumns) (s : Student) (v : Value)
    (hv : List.lookup k s = some v) :
    (∃ b, a.matchesStudent s = .ok b) ∧
      (f v = true → a.matchesStudent s = .ok false) := by
  simp only [catalogColumns, List.mem_cons, List.not_mem_nil, or_false,
    Prod.mk.injEq] at hak
  rcases hak with hGS | hBS | hFe | hMa | hYo | hYA | hAd | hLP | hMP | hHP | hLS | hMS | hHS
  · obtain ⟨rfl, rfl, rfl⟩ := hGS
    refine ⟨⟨_, HasGoodSleep_eval hv⟩, fun hpf => ?_⟩
    simp only [Bool.not_eq_true'] at hpf
    rw [HasGoodSleep_eval hv, (sleep_buckets_false hpf).1]
  · obtain ⟨rfl, rfl, rfl⟩ := hBS
    refine ⟨⟨_, HasBadSleep_eval hv⟩, fun hpf => ?_⟩
    simp only [Bool.not_eq_true'] at hpf
    rw [HasBadSleep_eval hv, (sleep_buckets_false hpf).2]
  · obtain ⟨rfl, rfl, rfl⟩ := hFe
    refine ⟨⟨_, IsFemale_eval hv⟩, fun hpf => ?_⟩
    simp only [Bool.not_eq_true'] at hpf
    unfold recognizedGender at hpf
    rw [Bool.or_eq_false_iff] at hpf
    rw [IsFemale_eval hv, hpf.1]
  · obtain ⟨rfl, rfl, rfl⟩ := hMa
    refine ⟨⟨_, IsMale_eval hv⟩, fun hpf => ?_⟩
    simp only [Bool.not_eq_true'] at hpf
    unfold recognizedGender at hpf
    rw [Bool.or_eq_false_iff] at hpf
    rw [IsMale_eval hv, hpf.2]
  · obtain ⟨rfl, rfl, rfl⟩ := hYo
    refine ⟨⟨_, IsYoung_eval hv⟩, fun hpf => ?_⟩
    cases hfv : pyFloatOf v with
    | ok f2 =>
      unfold numericParseFails at hpf
      rw [hfv] at hpf
      simp at hpf
    | error e => rw [IsYoung_eval hv, hfv]
  · obtain ⟨rfl, rfl, rfl⟩ := hYA
    refine ⟨⟨_, IsYoungAdult_eval hv⟩, fun hpf => ?_⟩
    cases hfv : pyFloatOf v with
    | ok f2 =>
      unfold numericParseFails at hpf
      rw [hfv] at hpf
      simp at hpf
    | error e => rw [IsYoungAdult_eval hv, hfv]
  · obtain ⟨rfl, rfl, rfl⟩ := hAd
    refine ⟨⟨_, IsAdult_eval hv⟩, fun hpf => ?_⟩
    cases hfv : pyFloatOf v with
    | ok f2 =>
      unfold numericParseFails at hpf
      rw [hfv] at hpf
      simp at hpf
    | error e => rw [IsAdult_eval hv, hfv]
  · obtain ⟨rfl, rfl, rfl⟩ := hLP
    refine ⟨⟨_, HasLowAcademicPressure_eval hv⟩, fun hpf => ?_⟩
    cases hfv : pyFloatOf v with
    | ok f2 =>
      unfold numericParseFails at hpf
      rw [hfv] at hpf
      simp at hpf
    | error e => rw [HasLowAcademicPressure_eval hv, hfv]
  · obtain ⟨rfl, rfl, rfl⟩ := hMP
    refine ⟨⟨_, HasMediumAcademicPressure_eval hv⟩, fun hpf => ?_⟩
    cases hfv : pyFloatOf v with
    | ok f2 =>
      unfold numericParseFails at hpf
      rw [hfv] at hpf
      simp at hpf
    | error e => rw [HasMediumAcademicPressure_eval hv, hfv]
  · obtain ⟨rfl, rfl, rfl⟩ := hHP
    refine ⟨⟨_, HasHighAcademicPressure_eval hv⟩, fun hpf => ?_⟩
    cases hfv : pyFloatOf v with
    | ok f2 =>
      unfold numericParseFails at hpf
      rw [hfv] at hpf
      simp at hpf
    | error e => rw [HasHighAcademicPressure_eval hv, hfv]
  · obtain ⟨rfl, rfl, rfl⟩ := hLS
    refine ⟨⟨_, HasLowStudySatisfaction_eval hv⟩, fun hpf => ?_⟩
    cases hfv : pyFloatOf v with
    | ok f2 =>
      unfold numericParseFails at hpf
      rw [hfv] at hpf
      simp at hpf
    | error e => rw [HasLowStudySatisfaction_eval hv, hfv]
  · obtain ⟨rfl, rfl, rfl⟩ := hMS
    refine ⟨⟨_, HasMediumStudySatisfaction_eval hv⟩, fun hpf => ?_⟩
    cases hfv : pyFloatOf v with
    | ok f2 =>
      unfold numericParseFails at hpf
      rw [hfv] at hpf
      simp at hpf
    | error e => rw [HasMediumStudySatisfaction_eval hv, hfv]
  · obtain ⟨rfl, rfl, rfl⟩ := hHS
    refine ⟨⟨_, HasHighStudySatisfaction_eval hv⟩, fun hpf => ?_⟩
    cases hfv : pyFloatOf v with
    | ok f2 =>
      unfold numericParseFails at hpf
      rw [hfv] at hpf
      simp at hpf
    | error e => rw [HasHighStudySatisfaction_eval hv, hfv]

/-- Witness for the amended C3: on a record carrying only an `Age`
column with a non-numeric string, `IsYoung` returns a Boolean, and that
Boolean is false. -/
theorem matches_total_and_false_on_parse_failure_witness :
    (∃ b, IsYoung.matchesStudent [("Age", Value.vStr "garbage")] = .ok b) ∧
    IsYoung.matchesStudent [("Age", Value.vStr "garbage")] = .ok false :=
  ⟨(matches_total_and_false_on_parse_failure IsYoung "Age" numericParseFails
      (by simp [catalogColumns]) [("Age", Value.vStr "garbage")]
      (Value.vStr "garbage") rfl).1,
   (matches_total_and_false_on_parse_failure IsYoung "Age" numericParseFails
      (by simp [catalogColumns]) [("Age", Value.vStr "garbage")]
      (Value.vStr "garbage") rfl).2 (by decide)⟩

/-- Counterexample to C4 as stated: a record with age 24.5 satisfies
both `17 < age < 25` (`Age_Young`) and `24 < age < 40`
(`Age_Young_Adult`) — the two brackets overlap on (24, 25). -/
theorem age_young_and_young_adult_overlap :
    IsYoung.matchesStudent (ageRecord (.num (mkRat 49 2))) = .ok true ∧
    IsYoungAdult.matchesStudent (ageRecord (.num (mkRat 49 2))) = .ok true := by
  decide

/-- C4 (amended): at most one of the three age predicates fires on any
record whose age does not lie strictly between 24 and 25; on that open
interval `Age_Young` and `Age_Young_Adult` both fire. -/
theorem age_attrs_at_most_one_outside_overlap (s : Student)
    (h : ageInOverlap s = false) : ageTrueCount s ≤ 1 := by
  unfold ageTrueCount
  cases hv : List.lookup "Age" s with
  | none =>
    rw [IsYoung_eval_err hv, IsYoungAdult_eval_err hv, IsAdult_eval_err hv]
    simp [okTrue_error]
  | some v =>
    rw [IsYoung_eval hv, IsYoungAdult_eval hv, IsAdult_eval hv]
    cases hf : pyFloatOf v with
    | error e => simp [okTrue_ok]
    | ok f =>
      cases f with
      | nan => simp [okTrue_ok, PyFloat.lt, PyFloat.le, PyFloat.beq]
      | inf => simp [okTrue_ok, PyFloat.lt, PyFloat.le, PyFloat.beq]
      | ninf => simp [okTrue_ok, PyFloat.lt, PyFloat.le, PyFloat.beq]
      | num q =>
        have hq : ageRatOf s = some q := by simp only [ageRatOf, hv, hf]
        have hno : ¬ ((24 : Rat) < q ∧ q < 25) := by
          unfold ageInOverlap at h
          rw [hq] at h
          rintro ⟨h1, h2⟩
          simp [h1, h2] at h
        simp only [okTrue_ok, pf_lt_num, pf_le_num]
        simp only [Bool.and_eq_true, decide_eq_true_eq]
        by_cases hA : (40 : Rat) ≤ q
        · have hY : ¬ ((17 : Rat) < q ∧ q < 25) := by
            rintro ⟨h1, h2⟩
            linarith
          have hYA : ¬ ((24 : Rat) < q ∧ q < 40) := by
            rintro ⟨h1, h2⟩
            linarith
          simp [hA, hY, hYA]
        · by_cases hYA : (24 : Rat) < q ∧ q < 40
          · have hY : ¬ ((17 : Rat) < q ∧ q < 25) := fun hc => hno ⟨hYA.1, hc.2⟩
            simp [hY, hYA, hA]
          · simp only [if_neg hYA, if_neg hA]
            split_ifs <;> norm_num

/-- Witness for the amended C4 at age 30. -/
theorem age_attrs_at_most_one_outside_overlap_witness :
    ageTrueCount (ageRecord (.num 30)) ≤ 1 :=
  age_attrs_at_most_one_outside_overlap (ageRecord (.num 30)) (by decide)

/-- Counterexample to C5 as stated: the claim says age 24.0 matches no
age attribute, but `17 < 24 < 25` holds, so `Age_Young` fires. -/
theorem age_24_matches_age_young :
    IsYoung.matchesStudent (ageRecord (.num 24)) = .ok true := by
  decide

/-- C5 (amended): the literal boundary scenarios, with age 24.0
corrected to match `Age_Young` (and nothing else): 17.0 matches no age
attribute; 20.0 and 24.0 match `Age_Young` only; 30.0 matches
`Age_Young_Adult` only; 40.0 matches `Age_Adult` only; pressure 3.0
matches `Medium_Academic_Pressure` only; pressure 2.9 matches
`Low_Academic_Pressure` only. -/
theorem threshold_boundary_scenarios :
    (IsYoung.matchesStudent (ageRecord (.num 17)) = .ok false ∧
     IsYoungAdult.matchesStudent (ageRecord (.num 17)) = .ok false ∧
     IsAdult.matchesStudent (ageRecord (.num 17)) = .ok false) ∧
    (IsYoung.matchesStudent (ageRecord (.num 20)) = .ok true ∧
     IsYoungAdult.matchesStudent (ageRecord (.num 20)) = .ok false ∧
     IsAdult.matchesStudent (ageRecord (.num 20)) = .ok false) ∧
    (IsYoung.matchesStudent (ageRecord (.num 24)) = .ok true ∧
     IsYoungAdult.matchesStudent (ageRecord (.num 24)) = .ok false ∧
     IsAdult.matchesStudent (ageRecord (.num 24)) = .ok false) ∧
    (IsYoung.matchesStudent (ageRecord (.num 30)) = .ok false ∧
     IsYoungAdult.matchesStudent (ageRecord (.num 30)) = .ok true ∧
     IsAdult.matchesStudent (ageRecord (.num 30)) = .ok false) ∧
    (IsYoung.matchesStudent (ageRecord (.num 40)) = .ok false ∧
     IsYoungAdult.matchesStudent (ageRecord (.num 40)) = .ok false ∧
     IsAdult.matchesStudent (ageRecord (.num 40)) = .ok true) ∧
    (HasLowAcademicPressure.matchesStudent (pressureRecord (.num 3)) = .ok false ∧
     HasMediumAcademicPressure.matchesStudent (pressureRecord (.num 3)) = .ok true ∧
     HasHighAcademicPressure.matchesStudent (pressureRecord (.num 3)) = .ok false) ∧
    (HasLowAcademicPressure.matchesStudent (pressureRecord (.num (mkRat 29 10))) = .ok true ∧
     HasMediumAcademicPressure.matchesStudent (pressureRecord (.num (mkRat 29 10))) = .ok false ∧
     HasHighAcademicPressure.matchesStudent (pressureRecord (.num (mkRat 29 10))) = .ok false) := by
  decide

/-! ### Claims C6, C9, C10 -/

/-- Counterexample to C6 as stated: the claimed normalization is
case-folded, so a lowercase sleep field `"more than 8 hours"` would be
in the bucket; the code compares case-sensitively against
`"More than 8 hours"` and answers false. -/
theorem sleep_spec_normalization_mismatch :
    specHasGoodSleep (Value.vStr "more than 8 hours") = true ∧
    HasGoodSleep.matchesStudent [("Sleep Duration", Value.vStr "more than 8 hours")]
      = .ok false := by
  decide

/-- C6 (amended): `HasGoodSleep` matches iff the sleep field, converted
with `str`, trimmed of whitespace and with every apostrophe deleted —
but without case folding and keeping double-quote characters — is
exactly `"7-8 hours"` or `"More than 8 hours"`. -/
theorem hasGoodSleep_iff_normalized_member (s : Student) (v : Value)
    (hv : List.lookup "Sleep Duration" s = some v) :
    HasGoodSleep.matchesStudent s = .ok true ↔
      ["7-8 hours", "More than 8 hours"].contains
        (pyDelChar aposChar (pyStrip (pyStr v))) = true := by
  rw [HasGoodSleep_eval hv]
  simp

/-- A sleep field `"7-8 hours"` surrounded by apostrophes and
whitespace. -/
def aposQuotedSleep : String :=
  String.mk (Char.ofNat 32 :: aposChar :: ("7-8 hours".toList ++ [aposChar, Char.ofNat 32]))

/-- Witness for the amended C6: the spec's apostrophe-quoted,
whitespace-padded scenario yields good sleep and not bad sleep. -/
theorem hasGoodSleep_iff_normalized_member_witness :
    HasGoodSleep.matchesStudent [("Sleep Duration", Value.vStr aposQuotedSleep)] = .ok true ∧
    HasBadSleep.matchesStudent [("Sleep Duration", Value.vStr aposQuotedSleep)] = .ok false :=
  ⟨(hasGoodSleep_iff_normalized_member [("Sleep Duration", Value.vStr aposQuotedSleep)]
      (Value.vStr aposQuotedSleep) rfl).mpr (by decide), by decide⟩

/-- C9: whenever the sample-percentage argument does not parse as a
float in `[0, 100]` — non-numeric text, out-of-range values, `nan`,
infinities — the script prints the descriptive message and exits with
the non-zero status 1, before any dataset is read or classified. -/
theorem sample_percentage_invalid_exits (arg : String)
    (h : sampleArgValid arg = false) :
    parseSamplePercentage arg =
      .exit "Error: sample_percentage must be a number between 0 and 100" 1 := by
  unfold sampleArgValid at h
  unfold parseSamplePercentage
  cases hp : pyFloatOfString arg with
  | error e => rfl
  | ok p =>
    rw [hp] at h
    have h2 : ((PyFloat.num 0).le p && p.le (PyFloat.num 100)) = false := h
    simp [h2]

/-- Witness for C9 on the non-numeric argument `"abc"`. -/
theorem sample_percentage_invalid_exits_witness :
    parseSamplePercentage "abc" =
      .exit "Error: sample_percentage must be a number between 0 and 100" 1 :=
  sample_percentage_invalid_exits "abc" (by decide)

/-- C10: the three academic-pressure predicates (`< 3.0`, `== 3.0`,
`> 3.0`) are pairwise exclusive — at most one fires on any record — and
when the pressure field converts to `nan` none of the three fires. -/
theorem pressure_attrs_exclusive_and_nan (s : Student) :
    pressureTrueCount s ≤ 1 ∧ (pressureIsNaN s = true → pressureTrueCount s = 0) := by
  unfold pressureTrueCount pressureIsNaN
  cases hv : List.lookup "Academic Pressure" s with
  | none =>
    rw [HasLowAcademicPressure_eval_err hv, HasMediumAcademicPressure_eval_err hv,
      HasHighAcademicPressure_eval_err hv]
    simp [okTrue_error]
  | some v =>
    rw [HasLowAcademicPressure_eval hv, HasMediumAcademicPressure_eval hv,
      HasHighAcademicPressure_eval hv]
    cases hf : pyFloatOf v with
    | error e => simp [okTrue_ok]
    | ok f =>
      cases f with
      | nan => simp [okTrue_ok, PyFloat.lt, PyFloat.gt, PyFloat.beq, hf]
      | inf => simp [okTrue_ok, PyFloat.lt, PyFloat.gt, PyFloat.beq, hf]
      | ninf => simp [okTrue_ok, PyFloat.lt, PyFloat.gt, PyFloat.beq, hf]
      | num q =>
        constructor
        · simp only [okTrue_ok, pf_lt_num, pf_beq_num, pf_gt_num, decide_eq_true_eq]
          rcases lt_trichotomy q 3 with hq | hq | hq
          · have h2 : ¬ (q = (3 : Rat)) := ne_of_lt hq
            have h3 : ¬ ((3 : Rat) < q) := by linarith
            simp [hq, h2, h3]
          · have h1 : ¬ (q < (3 : Rat)) := by simp [hq]
            have h3 : ¬ ((3 : Rat) < q) := by simp [hq]
            simp [hq, h1, h3]
          · have h1 : ¬ (q < (3 : Rat)) := by linarith
            have h2 : ¬ (q = (3 : Rat)) := ne_of_gt hq
            simp [hq, h1, h2]
        · intro hnan
          simp [hf] at hnan

/-- Witness for C10: a `nan` pressure field fires none of the three. -/
theorem pressure_attrs_exclusive_and_nan_witness :
    pressureTrueCount (pressureRecord .nan) = 0 :=
  (pressure_attrs_exclusive_and_nan (pressureRecord .nan)).2 (by decide)

/-! ### Claims C1, C2, C7, C8 -/

/-- A record whose identifier is the attribute name `Gender_Male` and
whose gender is female (all other fields unparseable). -/
def c1RecA : Student :=
  fullRecord (Value.vStr "Gender_Male") (Value.vStr "female") (Value.vStr "x")
    (Value.vStr "x") (Value.vStr "x") (Value.vStr "x")

/-- A record whose identifier is the attribute name `Gender_Female` and
which matches no gender attribute. -/
def c1RecB : Student :=
  fullRecord (Value.vStr "Gender_Female") (Value.vStr "other") (Value.vStr "x")
    (Value.vStr "x") (Value.vStr "x") (Value.vStr "x")

/-- Counterexample to C1 as stated: in the graph built from
`[c1RecA, c1RecB]`, the undirected edge between `c1RecB`'s identifier
(`"Gender_Female"`) and the attribute name `"Gender_Male"` is present —
it was contributed by `c1RecA`, whose identifier collides with the
attribute name — even though `IsMale`'s predicate is false on `c1RecB`.
So "edge `(r, a)` exists iff `a.predicate(r)` is true" fails for
arbitrary inputs. -/
theorem edge_membership_not_iff_on_id_collision :
    edgeInBuild [c1RecA, c1RecB] "Gender_Female" "Gender_Male" = true ∧
    IsMale.matchesStudent c1RecB = .ok false := by
  decide

/-- C1 (amended): when the record identifiers are pairwise distinct and
none of them equals a catalog attribute name (the spec's data model
already stipulates unique identifiers and disjoint partitions), the
built graph contains the edge `{id r, name a}` iff `a`'s predicate
returned true on `r`.  The edge set is a `Finset`, so each edge appears
at most once. -/
theorem build_edge_iff_matches (records : List Student) (sids : List String)
    (G : BGraph) (hs : students records = .ok sids) (hnd : sids.Nodup)
    (hdisj : ∀ x ∈ sids, x ∉ attribute_nodes)
    (hG : buildGraph records = .ok G) (r : Student) (hr : r ∈ records)
    (v : Value) (hv : getItem r "id" = .ok v) (a : Attribute) (ha : a ∈ attributes) :
    eKey (pyStr v) a.getName ∈ G.edges ↔ a.matchesStudent r = .ok true := by
  constructor
  · intro hmem
    obtain ⟨r2, hr2, v2, hv2, a2, ha2, hma2, heq⟩ := (build_edges_mem hG _).mp hmem
    rcases eKey_eq_eKey_iff.mp heq with ⟨h1, h2⟩ | ⟨h1, h2⟩
    · have hidr : idOf r = .ok (pyStr v) := idOf_eq_ok_of hv
      have hidr2 : idOf r2 = .ok (pyStr v) := by
        rw [h1]
        exact idOf_eq_ok_of hv2
      obtain rfl := students_id_unique hs hnd hr hr2 hidr hidr2
      obtain rfl := attr_getName_inj a ha a2 ha2 h2
      exact hma2
    · exfalso
      have hsid : pyStr v ∈ sids := (students_ok_mem hs _).mpr ⟨r, hr, idOf_eq_ok_of hv⟩
      have hw : pyStr v ∈ attribute_nodes := by
        rw [h1]
        exact List.mem_map_of_mem _ ha2
      exact hdisj _ hsid hw
  · intro hm
    exact (build_edges_mem hG _).mpr ⟨r, hr, v, hv, a, ha, hm, rfl⟩

/-- A well-behaved single record for the C1 witness. -/
def c1wRec : Student :=
  fullRecord (Value.vStr "w1") (Value.vStr "Female") (Value.vStr "x")
    (Value.vStr "x") (Value.vStr "x") (Value.vStr "x")

/-- The graph built from `[c1wRec]`. -/
def c1wGraph : BGraph := ((buildGraph [c1wRec]).toOption).getD ⟨∅, ∅⟩

/-- Witness for the amended C1: on a concrete one-record input the edge
`{w1, Gender_Female}` is present iff `IsFemale` matched. -/
theorem build_edge_iff_matches_witness :
    eKey "w1" "Gender_Female" ∈ c1wGraph.edges ↔
      IsFemale.matchesStudent c1wRec = .ok true :=
  build_edge_iff_matches [c1wRec] ["w1"] c1wGraph rfl (by decide) (by decide) rfl
    c1wRec (List.mem_cons_self c1wRec []) (Value.vStr "w1") rfl IsFemale
    (by simp [attributes])

/-- A record whose identifier is the attribute name `Gender_Male` and
which matches `Gender_Female` (gender normalizes to `"female"`). -/
def c2Rec : Student :=
  fullRecord (Value.vStr "Gender_Male") (Value.vStr "Female") (Value.vStr "x")
    (Value.vStr "x") (Value.vStr "x") (Value.vStr "x")

/-- Counterexample to C2 as stated: the graph built from `[c2Rec]`
contains the edge between `"Gender_Male"` (the record's identifier) and
`"Gender_Female"` — both endpoints lie in the attribute partition, so
an edge joins two nodes of the same partition; bipartiteness of the
partitions does not hold for every input record collection. -/
theorem bipartite_violated_on_id_collision :
    edgeInBuild [c2Rec] "Gender_Male" "Gender_Female" = true ∧
    "Gender_Male" ∈ attribute_nodes ∧ "Gender_Female" ∈ attribute_nodes ∧
    students [c2Rec] = .ok ["Gender_Male"] := by
  decide

/-- C2 (amended): when no record identifier equals a catalog attribute
name, every edge of the built graph joins a record-identifier node to an
attribute-name node, and never two nodes of the same partition. -/
theorem build_bipartite_of_disjoint_ids (records : List Student) (sids : List String)
    (G : BGraph) (hs : students records = .ok sids)
    (hdisj : ∀ x ∈ sids, x ∉ attribute_nodes)
    (hG : buildGraph records = .ok G) :
    ∀ t ∈ G.edges, ∃ u w, t = eKey u w ∧ u ∈ sids ∧ u ∉ attribute_nodes ∧
      w ∈ attribute_nodes ∧ w ∉ sids := by
  intro t ht
  obtain ⟨r, hr, v, hv, a, ha, hma, rfl⟩ := (build_edges_mem hG t).mp ht
  have hu : pyStr v ∈ sids := (students_ok_mem hs _).mpr ⟨r, hr, idOf_eq_ok_of hv⟩
  have hw : a.getName ∈ attribute_nodes := List.mem_map_of_mem _ ha
  exact ⟨pyStr v, a.getName, rfl, hu, hdisj _ hu, hw, fun hws => hdisj _ hws hw⟩

/-- A well-behaved single record for the C2 witness. -/
def c2wRec : Student :=
  fullRecord (Value.vStr "w2") (Value.vStr "female") (Value.vStr "x")
    (Value.vStr "x") (Value.vStr "x") (Value.vStr "x")

/-- The graph built from `[c2wRec]`. -/
def c2wGraph : BGraph := ((buildGraph [c2wRec]).toOption).getD ⟨∅, ∅⟩

/-- Witness for the amended C2, applied to the concrete edge
`{w2, Gender_Female}` of the graph built from `[c2wRec]`. -/
theorem build_bipartite_of_disjoint_ids_witness :
    ∃ u w, eKey "w2" "Gender_Female" = eKey u w ∧ u ∈ ["w2"] ∧
      u ∉ attribute_nodes ∧ w ∈ attribute_nodes ∧ w ∉ ["w2"] :=
  build_bipartite_of_disjoint_ids [c2wRec] ["w2"] c2wGraph rfl (by decide) rfl
    (eKey "w2" "Gender_Female") (by decide)

/-- A record whose identifier is the attribute name `HasGoodSleep`. -/
def c7Rec : Student :=
  fullRecord (Value.vStr "HasGoodSleep") (Value.vStr "x") (Value.vStr "x")
    (Value.vStr "x") (Value.vStr "x") (Value.vStr "x")

/-- Counterexample to C7 as stated: one distinct record identifier plus
13 distinct attribute names would give 14 nodes, but the graph built
from `[c7Rec]` has 13 — the identifier `"HasGoodSleep"` collides with an
attribute name, so "node count = distinct identifiers + attribute
names" fails for arbitrary inputs. -/
theorem node_count_not_sum_on_collision :
    buildNodeCard [c7Rec] = some 13 ∧ students [c7Rec] = .ok ["HasGoodSleep"] ∧
    attribute_nodes.length = 13 := by
  decide

/-- C7 (amended): the node set of a successfully built graph is always
the union of the distinct record identifiers and the full catalog's
names (every catalog entry becomes a node even with zero edges); when
no identifier equals an attribute name the node count is the sum of the
two partition sizes. -/
theorem build_nodes_union_and_card (records : List Student) (sids : List String)
    (G : BGraph) (hs : students records = .ok sids)
    (hG : buildGraph records = .ok G) :
    G.nodes = sids.toFinset ∪ attribute_nodes.toFinset ∧
      ((∀ x ∈ sids, x ∉ attribute_nodes) →
        G.nodes.card = sids.toFinset.card + attribute_nodes.toFinset.card) := by
  have hnodes : G.nodes = sids.toFinset ∪ attribute_nodes.toFinset := by
    ext x
    rw [build_nodes_mem hG x]
    simp only [Finset.mem_union, List.mem_toFinset]
    constructor
    · rintro (⟨r, hr, hid⟩ | ⟨a, ha, rfl⟩)
      · exact Or.inl ((students_ok_mem hs x).mpr ⟨r, hr, hid⟩)
      · exact Or.inr (List.mem_map_of_mem _ ha)
    · rintro (hx | hx)
      · exact Or.inl ((students_ok_mem hs x).mp hx)
      · obtain ⟨a, ha, rfl⟩ := List.mem_map.mp hx
        exact Or.inr ⟨a, ha, rfl⟩
  refine ⟨hnodes, fun hdisj => ?_⟩
  rw [hnodes]
  refine Finset.card_union_of_disjoint ?_
  rw [Finset.disjoint_left]
  intro x hx1 hx2
  exact hdisj x (List.mem_toFinset.mp hx1) (List.mem_toFinset.mp hx2)

/-- A collision-free record for the C7 witness. -/
def c7wRec : Student :=
  fullRecord (Value.vStr "w7") (Value.vStr "x") (Value.vStr "x")
    (Value.vStr "x") (Value.vStr "x") (Value.vStr "x")

/-- The graph built from `[c7wRec]`. -/
def c7wGraph : BGraph := ((buildGraph [c7wRec]).toOption).getD ⟨∅, ∅⟩

/-- Witness for the amended C7 on a concrete collision-free input. -/
theorem build_nodes_union_and_card_witness :
    c7wGraph.nodes.card =
      (["w7"] : List String).toFinset.card + attribute_nodes.toFinset.card :=
  (build_nodes_union_and_card [c7wRec] ["w7"] c7wGraph rfl rfl).2 (by decide)

/-- C8: the build is deterministic and evaluation-order independent —
for any permutation of the record collection and any permutation of the
catalog, successful builds have identical node sets and identical edge
sets (running twice on the same input is the `Perm.refl` case). -/
theorem build_perm_invariant (cat cat2 : List Attribute) (rs rs2 : List Student)
    (G G2 : BGraph) (hc : cat.Perm cat2) (hr : rs.Perm rs2)
    (hG : buildGraphWith cat rs = .ok G) (hG2 : buildGraphWith cat2 rs2 = .ok G2) :
    G.nodes = G2.nodes ∧ G.edges = G2.edges := by
  constructor
  · ext x
    rw [build_nodes_mem hG x, build_nodes_mem hG2 x]
    constructor
    · rintro (⟨r, hrr, hid⟩ | ⟨a, ha, rfl⟩)
      · exact Or.inl ⟨r, hr.mem_iff.mp hrr, hid⟩
      · exact Or.inr ⟨a, hc.mem_iff.mp ha, rfl⟩
    · rintro (⟨r, hrr, hid⟩ | ⟨a, ha, rfl⟩)
      · exact Or.inl ⟨r, hr.mem_iff.mpr hrr, hid⟩
      · exact Or.inr ⟨a, hc.mem_iff.mpr ha, rfl⟩
  · ext t
    rw [build_edges_mem hG t, build_edges_mem hG2 t]
    constructor
    · rintro ⟨r, hrr, v, hv, a, ha, hm, rfl⟩
      exact ⟨r, hr.mem_iff.mp hrr, v, hv, a, hc.mem_iff.mp ha, hm, rfl⟩
    · rintro ⟨r, hrr, v, hv, a, ha, hm, rfl⟩
      exact ⟨r, hr.mem_iff.mpr hrr, v, hv, a, hc.mem_iff.mpr ha, hm, rfl⟩

/-- First record for the C8 witness. -/
def c8wRecA : Student :=
  fullRecord (Value.vStr "w8a") (Value.vStr "male") (Value.vFloat (.num 20))
    (Value.vFloat (.num 3)) (Value.vFloat (.num 2)) (Value.vStr "7-8 hours")

/-- Second record for the C8 witness. -/
def c8wRecB : Student :=
  fullRecord (Value.vStr "w8b") (Value.vStr "female") (Value.vFloat (.num 45))
    (Value.vFloat (.num 4)) (Value.vFloat (.num 3)) (Value.vStr "5-6 hours")

/-- The graph built from `[c8wRecA, c8wRecB]`. -/
def c8wGraphAB : BGraph :=
  ((buildGraphWith attributes [c8wRecA, c8wRecB]).toOption).getD ⟨∅, ∅⟩

/-- The graph built from the swapped record list. -/
def c8wGraphBA : BGraph :=
  ((buildGraphWith attributes [c8wRecB, c8wRecA]).toOption).getD ⟨∅, ∅⟩

/-- Witness for C8: building after swapping the two records yields the
same node set and edge set. -/
theorem build_perm_invariant_witness :
    c8wGraphAB.nodes = c8wGraphBA.nodes ∧ c8wGraphAB.edges = c8wGraphBA.edges :=
  build_perm_invariant attributes attributes [c8wRecA, c8wRecB] [c8wRecB, c8wRecA]
    c8wGraphAB c8wGraphBA (List.Perm.refl attributes) (List.Perm.swap c8wRecB c8wRecA [])
    rfl rfl
